import Mathlib

/-!
Verification of the EduCast AI podcast-generation pipeline.

This file gives a shallow embedding of the pipeline's pure core:
the speaker-assignment algorithm and script formatting of
src/script_generator.py, the audio synthesis wrapper and orchestrator of
src/audio_generator.py, the knowledge extractor of knowledge_extraction.py,
and the request handlers of src/api.py.

External HTTP services (the answer service, the chat-completion service and
the dialogue-synthesis service) are modelled as oracle function parameters;
the filesystem is modelled as a map from paths to byte lists; Python byte
strings are modelled as lists of naturals; Python floats appearing in the
duration estimate are modelled as rationals, which is exact here because the
only divisions performed are by powers of two on integer byte counts.
Python dictionaries with a fixed key set are modelled as structures; values
that may be absent (duck-typed attribute access, optional JSON keys) are
modelled with Option.  Exceptions crossing a boundary are modelled with
Except; console printing is not modelled.
-/

namespace EduCast

/-- Speaker configuration entry: the dict built by
ScriptGenerator._get_speaker_config, with keys name, role, personality and
voice_id. -/
structure SpeakerConfig where
  name : String
  role : String
  personality : String
  voice_id : String
deriving Repr, DecidableEq

/-- One dialogue turn of a generated script: the dict with keys speaker, text
and emotion produced by the chat-completion service's structured output. -/
structure DialogueTurn where
  speaker : String
  text : String
  emotion : String
deriving Repr, DecidableEq

/-- One entry of the list returned by format_for_elevenlabs: dict with keys
text and voice_id. -/
structure SynthesisEntry where
  text : String
  voice_id : String
deriving Repr, DecidableEq

/-- Lookup in the dict comprehension
voice_map = \x7bspeaker['name']: speaker['voice_id'] for speaker in speaker_config\x7d.
A Python dict built by comprehension keeps the LAST binding for a repeated
key, so lookup scans later entries first. -/
def voiceMapGet : List SpeakerConfig → String → Option String
  | [], _ => none
  | c :: rest, n =>
    match voiceMapGet rest n with
    | some v => some v
    | none => if c.name = n then some c.voice_id else none

/-- ScriptGenerator.format_for_elevenlabs (src/script_generator.py lines
274-298).  For each turn the Python source evaluates
voice_map.get(speaker_name, speaker_config[0]['voice_id']); the default
argument speaker_config[0]['voice_id'] is evaluated eagerly before the
lookup, so an empty speaker_config raises IndexError as soon as the loop
body runs, modelled by the Except error case carrying the Python
IndexError message. -/
def format_for_elevenlabs (script : List DialogueTurn)
    (speaker_config : List SpeakerConfig) : Except String (List SynthesisEntry) :=
  match script with
  | [] => Except.ok []
  | turn :: rest =>
    match speaker_config.head? with
    | none => Except.error "list index out of range"
    | some c0 =>
      let voice_id := (voiceMapGet speaker_config turn.speaker).getD c0.voice_id
      match format_for_elevenlabs rest speaker_config with
      | Except.ok out => Except.ok ({ text := turn.text, voice_id := voice_id } :: out)
      | Except.error e => Except.error e

/-- Fixed pool of eight default ElevenLabs voice identifiers
(src/script_generator.py lines 133-142). -/
def available_voices : List String :=
  ["9BWtsMINqrJLrRacOk9x", "IKne3meq5aSn9XLyUdCD", "EXAVITQu4vr4xnSDxMaL",
   "VR6AewLTigWG4xSOukaG", "ThT5KcBeYPX3keUQqHPh", "XB0fDUnXU5powFXDhCwa",
   "ErXwobaYiN019PkySvjV", "MF3mGyEYCl7XYWbV9V6O"]

/-- One iteration step count for the padding while-loop of
_get_speaker_config: while len(selected_voices) < num_speakers, append
available_voices[len(selected_voices) % len(available_voices)].  The loop
runs exactly target - len(sel) times since each pass appends one element. -/
def padLoop : Nat → List String → List String
  | 0, sel => sel
  | n + 1, sel =>
      padLoop n (sel ++ [available_voices.getD (sel.length % available_voices.length) ""])

/-- Padding of the selected voices up to the requested speaker count
(src/script_generator.py lines 147-149). -/
def padVoices (sel : List String) (target : Nat) : List String :=
  padLoop (target - sel.length) sel

/-- Characteristic-to-(role, personality) table of _get_speaker_config
(src/script_generator.py lines 158-171); membership test of the Python dict
is modelled by the Option result. -/
def characteristic_map (c : String) : Option (String × String) :=
  if c = "expert" then some ("Host/Expert", "Knowledgeable, enthusiastic, clear explainer")
  else if c = "curious" then some ("Curious Learner", "Curious, asks great questions, relatable")
  else if c = "analytical" then some ("Analyst", "Analytical, provides depth and context")
  else if c = "practical" then some ("Practical Expert", "Experienced, shares practical insights")
  else if c = "casual" then some ("Co-host", "Laid-back, conversational, storyteller")
  else if c = "energetic" then some ("Co-host", "Energetic, witty, brings fun facts")
  else if c = "friendly" then some ("Guest", "Friendly, engaging, relatable")
  else if c = "humorous" then some ("Guest", "Humorous, light-hearted, entertaining")
  else if c = "advocate" then some ("Advocate", "Analytical, presents one perspective")
  else if c = "challenger" then some ("Challenger", "Critical thinker, questions assumptions")
  else if c = "moderator" then some ("Moderator", "Balanced, facilitates discussion")
  else if c = "data-driven" then some ("Analyst", "Data-driven, provides evidence")
  else none

/-- Default speaker names of _get_speaker_config (line 174). -/
def default_names : List String := ["Alex", "Jordan", "Sam", "Riley"]

/-- Style-based speaker name table (lines 185-212): educational, casual,
else-debate. -/
def style_speaker_names (style : String) : List String :=
  if style = "educational" then ["Alex", "Jordan", "Sam", "Riley"]
  else if style = "casual" then ["Sam", "Riley", "Alex", "Jordan"]
  else ["Morgan", "Taylor", "Casey", "Jordan"]

/-- Style-based speaker role table (lines 185-212). -/
def style_speaker_roles (style : String) : List String :=
  if style = "educational" then ["Host/Expert", "Curious Learner", "Co-host", "Guest Expert"]
  else if style = "casual" then ["Co-host", "Co-host", "Guest", "Guest"]
  else ["Advocate", "Challenger", "Moderator", "Analyst"]

/-- Style-based personality table (lines 185-212). -/
def style_personalities (style : String) : List String :=
  if style = "educational" then
    ["Knowledgeable, enthusiastic, clear explainer",
     "Curious, asks great questions, relatable",
     "Analytical, provides depth and context",
     "Experienced, shares practical insights"]
  else if style = "casual" then
    ["Laid-back, conversational, storyteller",
     "Energetic, witty, brings fun facts",
     "Friendly, engaging, relatable",
     "Humorous, light-hearted, entertaining"]
  else
    ["Analytical, presents one perspective",
     "Critical thinker, questions assumptions",
     "Balanced, facilitates discussion",
     "Data-driven, provides evidence"]

/-- Voice selection before clamping (src/script_generator.py lines 144-151):
caller-supplied voices truncated and padded from the default pool, or the
default pool itself when the Python truthiness test if voice_ids fails
(None or the empty list). -/
def selectedVoicesPre (num_speakers : Nat) (voice_ids : Option (List String)) :
    List String :=
  match voice_ids with
  | some vs =>
    if vs = [] then available_voices.take num_speakers
    else padVoices (vs.take num_speakers) num_speakers
  | none => available_voices.take num_speakers

/-- ScriptGenerator._get_speaker_config (src/script_generator.py lines
119-223).  The guard characteristics and i < len(characteristics) is
equivalent to i < len(chars) with chars the characteristics list or [] for
None, since i < len implies non-emptiness.  Speaker counts are modelled as
naturals (the callers pass non-negative speaker counts). -/
def _get_speaker_config (num_speakers : Nat) (style : String)
    (voice_ids : Option (List String)) (characteristics : Option (List String)) :
    List SpeakerConfig :=
  let ns := min num_speakers 4
  let selected_voices := (selectedVoicesPre num_speakers voice_ids).take ns
  let chars := characteristics.getD []
  (List.range ns).map (fun i =>
    if i < chars.length ∧ (characteristic_map (chars.getD i "")).isSome then
      { name := default_names.getD i ""
        role := ((characteristic_map (chars.getD i "")).getD ("", "")).1
        personality := ((characteristic_map (chars.getD i "")).getD ("", "")).2
        voice_id := selected_voices.getD i "" }
    else
      { name := if i < (style_speaker_names style).length
                then (style_speaker_names style).getD i "" else default_names.getD i ""
        role := if i < (style_speaker_roles style).length
                then (style_speaker_roles style).getD i "" else "Speaker"
        personality := if i < (style_personalities style).length
                then (style_personalities style).getD i "" else "Engaging conversationalist"
        voice_id := selected_voices.getD i "" })

/-- Target turn counts by requested length, with the Python dict lookup
turn_targets.get(length, turn_targets['medium']) folded in
(src/script_generator.py lines 230-234, 247). -/
def turn_targets (length : String) : String :=
  if length = "short" then "8-12 dialogue turns (~3-4 minutes)"
  else if length = "medium" then "15-20 dialogue turns (~7-10 minutes)"
  else if length = "detailed" then "25-35 dialogue turns (~12-15 minutes)"
  else "15-20 dialogue turns (~7-10 minutes)"

/-- Speaker description block of the system prompt (lines 236-239). -/
def speakersDesc (speaker_config : List SpeakerConfig) : String :=
  String.intercalate "\n" (speaker_config.map (fun s =>
    "- " ++ s.name ++ " (" ++ s.role ++ "): " ++ s.personality))

/-- ScriptGenerator._create_system_prompt (src/script_generator.py lines
225-272). -/
def _create_system_prompt (speaker_config : List SpeakerConfig)
    (style : String) (length : String) : String :=
  "You are a professional podcast script writer. Create an engaging " ++ style ++
  " podcast dialogue.\n\nSpeakers:\n" ++ speakersDesc speaker_config ++
  "\n\nGuidelines:\n1. Target length: " ++ turn_targets length ++
  "\n2. Make it conversational and natural - use casual language, questions, acknowledgments\n" ++
  "3. Include emotional cues in brackets: [enthusiastically], [curious], [thoughtfully], [excited], [chuckling]\n" ++
  "4. Break down complex concepts into digestible pieces\n" ++
  "5. Use examples and analogies when helpful\n" ++
  "6. Maintain good pacing - alternate between speakers naturally\n" ++
  "7. Add natural transitions and reactions\n" ++
  "8. End with a clear conclusion or takeaway\n\n" ++
  "Response Format (JSON):\n\x7b\n    \"dialogue\": [\n        \x7b\n" ++
  "            \"speaker\": \"Alex\",\n" ++
  "            \"text\": \"[enthusiastically] Welcome to today\x27s episode! We\x27re diving into...\",\n" ++
  "            \"emotion\": \"enthusiastic\"\n        \x7d,\n        \x7b\n" ++
  "            \"speaker\": \"Jordan\",\n" ++
  "            \"text\": \"[curious] That sounds fascinating! Can you explain...\",\n" ++
  "            \"emotion\": \"curious\"\n        \x7d\n    ]\n\x7d\n\n" ++
  "Make it engaging, educational, and fun!"

/-- Metadata dict returned by generate_dialogue_script on success
(src/script_generator.py lines 103-109). -/
structure ScriptMetadata where
  topic : String
  num_speakers : Nat
  style : String
  length : String
  speaker_config : List SpeakerConfig
deriving Repr, DecidableEq

/-- Result dict of generate_dialogue_script: success dict with script and
metadata, or failure dict with the exception text. -/
inductive ScriptResult where
  | ok (script : List DialogueTurn) (metadata : ScriptMetadata)
  | err (error : String)
deriving Repr, DecidableEq

/-- ScriptGenerator.generate_dialogue_script (src/script_generator.py lines
36-117).  The chat-completion request plus JSON parsing of its content and
extraction of the dialogue key is modelled by the oracle chat applied to the
system and user prompts, returning the parsed dialogue turns or, in the
Except error case, the text of whatever exception the call or the parse
raised; the except-Exception handler converts that into the failure dict. -/
def generate_dialogue_script
    (chat : String → String → Except String (List DialogueTurn))
    (knowledge topic : String) (num_speakers : Nat) (style length : String)
    (voice_ids : Option (List String)) (characteristics : Option (List String)) :
    ScriptResult :=
  let speaker_config := _get_speaker_config num_speakers style voice_ids characteristics
  let system_prompt := _create_system_prompt speaker_config style length
  let user_prompt :=
    "\nTopic: " ++ topic ++ "\n\nKnowledge Content:\n" ++ knowledge ++
    "\n\nGenerate an engaging " ++ length ++ " podcast dialogue based on this content.\n"
  match chat system_prompt user_prompt with
  | Except.error e => ScriptResult.err e
  | Except.ok dialogue =>
    ScriptResult.ok dialogue
      { topic := topic
        num_speakers := num_speakers
        style := style
        length := length
        speaker_config := speaker_config }

/-- Filesystem model: a map from paths to file contents (byte lists). -/
def FileSystem : Type := String → Option (List Nat)

/-- Duration estimate of AudioGenerator.generate_podcast_audio
(src/audio_generator.py line 111): (file_size / 1024 / 1024) * 60.  Python
float division of an integer by 1024 twice is exact in binary floating
point for the file sizes at hand, so the rational model is exact. -/
def estimated_duration_of (file_size : Nat) : ℚ :=
  ((file_size : ℚ) / 1024 / 1024) * 60

/-- Result dict of AudioGenerator.generate_podcast_audio. -/
inductive AudioResult where
  | ok (audio_path : String) (file_size : Nat) (estimated_duration : ℚ)
  | err (error : String)
deriving Repr, DecidableEq

/-- AudioGenerator.generate_podcast_audio (src/audio_generator.py lines
64-130).  The streaming synthesis call is modelled by the oracle synth
returning the chunks yielded in arrival order, paired with some exception
text if the iterator raised mid-stream after those chunks.  The source
collects every chunk before opening the output file, so on a mid-stream
exception the except handler runs with the file never opened and the
filesystem is returned unchanged; on success the concatenation of all
chunks is written at output_path in one whole-buffer write and
os.path.getsize returns its byte length. -/
def generate_podcast_audio
    (synth : List SynthesisEntry → List (List Nat) × Option String)
    (dialogue_script : List SynthesisEntry) (output_path : String)
    (fs : FileSystem) : AudioResult × FileSystem :=
  match synth dialogue_script with
  | (_, some e) => (AudioResult.err e, fs)
  | (audio_chunks, none) =>
    let data := audio_chunks.flatten
    let fs2 : FileSystem := fun p => if p = output_path then some data else fs p
    let file_size := data.length
    (AudioResult.ok output_path file_size (estimated_duration_of file_size), fs2)

/-- Metadata of the final pipeline result: the script metadata dict merged
with the audio stage file metrics (src/audio_generator.py lines 275-279). -/
structure PodcastMetadata where
  topic : String
  num_speakers : Nat
  style : String
  length : String
  speaker_config : List SpeakerConfig
  file_size : Nat
  estimated_duration : ℚ
deriving Repr, DecidableEq

/-- Result dict of PodcastGenerator.generate_podcast. -/
inductive PodcastResult where
  | ok (audio_path : String) (script : List DialogueTurn) (metadata : PodcastMetadata)
  | err (error : String)
deriving Repr, DecidableEq

/-- PodcastGenerator.generate_podcast (src/audio_generator.py lines
199-280).  The orchestrator has no try-except of its own, so an IndexError
raised by format_for_elevenlabs propagates to the caller, modelled by the
outer Except error case; every handled outcome is an ok-tagged
PodcastResult paired with the resulting filesystem. -/
def PodcastGenerator.generate_podcast
    (chat : String → String → Except String (List DialogueTurn))
    (synth : List SynthesisEntry → List (List Nat) × Option String)
    (knowledge topic output_path : String) (num_speakers : Nat)
    (style length : String)
    (voice_ids : Option (List String)) (characteristics : Option (List String))
    (fs : FileSystem) : Except String (PodcastResult × FileSystem) :=
  let script_result :=
    generate_dialogue_script chat knowledge topic num_speakers style length
      voice_ids characteristics
  match script_result with
  | ScriptResult.err e =>
    Except.ok (PodcastResult.err ("Script generation failed: " ++ e), fs)
  | ScriptResult.ok script metadata =>
    match format_for_elevenlabs script metadata.speaker_config with
    | Except.error e => Except.error e
    | Except.ok dialogue_script =>
      match generate_podcast_audio synth dialogue_script output_path fs with
      | (AudioResult.err e, fs2) =>
        Except.ok (PodcastResult.err ("Audio generation failed: " ++ e), fs2)
      | (AudioResult.ok audio_path file_size est, fs2) =>
        Except.ok
          (PodcastResult.ok audio_path script
            { topic := metadata.topic
              num_speakers := metadata.num_speakers
              style := metadata.style
              length := metadata.length
              speaker_config := metadata.speaker_config
              file_size := file_size
              estimated_duration := est }, fs2)

/-- One entry of the search_results list of the answer service's response.
The source reads each field permissively (dict get or getattr with a
default), so each field is modelled as possibly absent. -/
structure SearchResult where
  title : Option String
  url : Option String
  source : Option String
  relevance_score : Option ℚ
deriving Repr, DecidableEq

/-- Normalized source dict built by KnowledgeExtractor._extract_sources. -/
structure Source where
  title : String
  url : String
  source : String
  relevance_score : ℚ
deriving Repr, DecidableEq

/-- Duck-typed response object of the answer service: hasattr probing of
success, error, contents and search_results is modelled by Option fields
(none = attribute absent). -/
structure ValyuResponse where
  success : Option Bool
  error : Option String
  contents : Option String
  search_results : Option (List SearchResult)
deriving Repr, DecidableEq

/-- KnowledgeExtractor._extract_sources (knowledge_extraction.py lines
175-198): when search_results is present and truthy (non-empty), each entry
is normalized with the defaults Unknown, empty string, Web and 0. -/
def _extract_sources (response : ValyuResponse) : List Source :=
  match response.search_results with
  | some results =>
    if results = [] then []
    else results.map (fun r =>
      { title := r.title.getD "Unknown"
        url := r.url.getD ""
        source := r.source.getD "Web"
        relevance_score := r.relevance_score.getD 0 })
  | none => []

/-- Result dict of KnowledgeExtractor.extract_knowledge, a dict whose key
set varies by branch: answer and sources are present only on success,
error only on failure, and raw_response on every branch except the
exception handler.  The inner Option of raw_response records that
answer() may itself evaluate to None. -/
structure ExtractionResult where
  success : Bool
  query : String
  answer : Option String
  sources : Option (List Source)
  error : Option String
  raw_response : Option (Option ValyuResponse)
deriving Repr, DecidableEq

/-- KnowledgeExtractor.extract_knowledge (knowledge_extraction.py lines
57-121).  The transport call self.valyu.answer(query) is modelled by the
oracle answerService; its Except error case carries the text of an
exception raised by the transport, which the except handler converts into
a failure dict, so the function itself is total and never raises.  The
Python truthiness chain response and hasattr(response, 'success') and
response.success is the test success = some true; the error-branch guard
is hasattr plus non-empty error text.  The search_depth argument is
accepted and unused by the source. -/
def KnowledgeExtractor.extract_knowledge
    (answerService : String → Except String (Option ValyuResponse))
    (query : String) (search_depth : String := "comprehensive") :
    ExtractionResult :=
  match answerService query with
  | Except.error e =>
    { success := false, query := query, answer := none, sources := none
      error := some e, raw_response := none }
  | Except.ok response =>
    match response with
    | some resp =>
      if resp.success = some true then
        { success := true, query := query
          answer := some (resp.contents.getD "")
          sources := some (_extract_sources resp)
          error := none, raw_response := some (some resp) }
      else if resp.error.getD "" ≠ "" then
        { success := false, query := query, answer := none, sources := none
          error := some ("API Error: " ++ resp.error.getD "")
          raw_response := some (some resp) }
      else
        { success := false, query := query, answer := none, sources := none
          error := some "No content received from Valyu.ai"
          raw_response := some (some resp) }
    | none =>
      { success := false, query := query, answer := none, sources := none
        error := some "No content received from Valyu.ai"
        raw_response := some none }

/-- Model of Python str.strip(): drop leading and trailing whitespace.
Defined by structural list recursion so that concrete queries evaluate
inside the kernel. -/
def pyStrip (s : String) : String :=
  String.mk (((s.data.dropWhile Char.isWhitespace).reverse.dropWhile
    Char.isWhitespace).reverse)

/-- Response of the extract endpoint: HTTP status code plus the JSON body
keys actually set by src/api.py lines 49-119. -/
structure ApiExtractResponse where
  status : Nat
  success : Bool
  query : Option String
  answer : Option String
  sources : Option (List Source)
  error : Option String
deriving Repr, DecidableEq

/-- Flask request handler extract_knowledge (src/api.py lines 49-119).  The
parsed JSON body is modelled as Option (Option String): none for a missing
or falsy body, some none for a body without the query key, some (some q)
for a string-valued query.  The truthiness test if not data and the key
test 'query' not in data both take the same 400 branch.  An uninitialized
extractor (construction failed at import) is the extractor_ready flag. -/
def Api.extract_knowledge
    (answerService : String → Except String (Option ValyuResponse))
    (extractor_ready : Bool)
    (data : Option (Option String)) : ApiExtractResponse :=
  match data with
  | none =>
    { status := 400, success := false, query := none, answer := none
      sources := none
      error := some "No query provided. Please send \x7b\"query\": \"your question\"\x7d" }
  | some none =>
    { status := 400, success := false, query := none, answer := none
      sources := none
      error := some "No query provided. Please send \x7b\"query\": \"your question\"\x7d" }
  | some (some rawQuery) =>
    let query := pyStrip rawQuery
    if query = "" then
      { status := 400, success := false, query := none, answer := none
        sources := none, error := some "Query cannot be empty" }
    else if extractor_ready = false then
      { status := 500, success := false, query := none, answer := none
        sources := none
        error := some "Knowledge extractor not initialized. Check API key." }
    else
      let result := KnowledgeExtractor.extract_knowledge answerService query
      if result.success then
        { status := 200, success := true, query := some result.query
          answer := some (result.answer.getD "")
          sources := some (result.sources.getD []), error := none }
      else
        { status := 200, success := false, query := none, answer := none
          sources := none, error := some (result.error.getD "Unknown error") }

/-- Output directory for generated podcasts (src/api.py lines 16-17); the
environment-dependent absolute project root prefix is elided. -/
def PODCASTS_DIR : String := "podcasts"

/-- Model of os.path.basename for the forward-slash paths built by the
endpoint. -/
def basename (p : String) : String := (p.splitOn "/").getLastD p

/-- Parsed JSON body of the generate-podcast endpoint: query plus the
optional style, length and num_speakers keys (src/api.py lines 182-193). -/
structure PodcastRequestBody where
  query : Option String
  style : Option String
  length : Option String
  num_speakers : Option Nat
deriving Repr, DecidableEq

/-- Response of the generate-podcast endpoint: HTTP status code plus the
JSON body keys set by src/api.py lines 159-257. -/
structure ApiPodcastResponse where
  status : Nat
  success : Bool
  audio_data : Option String
  audio_filename : Option String
  script : Option (List DialogueTurn)
  metadata : Option PodcastMetadata
  error : Option String
deriving Repr, DecidableEq

/-- Flask request handler generate_podcast (src/api.py lines 159-257).
After the missing-query check the stripped query is used directly: the
source has no emptiness check here, so an empty stripped query reaches the
knowledge extractor.  The base64 encoding of the produced audio bytes is
the library function, taken as the oracle b64encode; the extractor
component is taken as initialized (its construction-failure AttributeError
path is not exercised by any claim).  The final open of the audio path
cannot miss on the success path since the audio stage just wrote it; the
defensive branch mirrors the except handler. -/
def Api.generate_podcast
    (answerService : String → Except String (Option ValyuResponse))
    (chat : String → String → Except String (List DialogueTurn))
    (synth : List SynthesisEntry → List (List Nat) × Option String)
    (b64encode : List Nat → String)
    (podcast_gen_ready : Bool)
    (data : Option PodcastRequestBody)
    (fs : FileSystem) : ApiPodcastResponse × FileSystem :=
  match data with
  | none =>
    ({ status := 400, success := false, audio_data := none
       audio_filename := none, script := none, metadata := none
       error := some "No query provided" }, fs)
  | some body =>
    match body.query with
    | none =>
      ({ status := 400, success := false, audio_data := none
         audio_filename := none, script := none, metadata := none
         error := some "No query provided" }, fs)
    | some rawQuery =>
      let query := pyStrip rawQuery
      let style := body.style.getD "educational"
      let length := body.length.getD "medium"
      let num_speakers := body.num_speakers.getD 2
      if podcast_gen_ready = false then
        ({ status := 500, success := false, audio_data := none
           audio_filename := none, script := none, metadata := none
           error := some "Podcast generator not initialized. Check API keys." }, fs)
      else
        let knowledge_result := KnowledgeExtractor.extract_knowledge answerService query
        if knowledge_result.success = false then
          ({ status := 500, success := false, audio_data := none
             audio_filename := none, script := none, metadata := none
             error := some ("Knowledge extraction failed: " ++
               knowledge_result.error.getD "None") }, fs)
        else
          let safe_filename := ((query.take 50).replace " " "_").replace "/" "_"
          let output_path := PODCASTS_DIR ++ "/" ++ safe_filename ++ ".mp3"
          match PodcastGenerator.generate_podcast chat synth
              (knowledge_result.answer.getD "") query output_path num_speakers
              style length none none fs with
          | Except.error e =>
            ({ status := 500, success := false, audio_data := none
               audio_filename := none, script := none, metadata := none
               error := some ("Server error: " ++ e) }, fs)
          | Except.ok (PodcastResult.err e, fs2) =>
            ({ status := 500, success := false, audio_data := none
               audio_filename := none, script := none, metadata := none
               error := some e }, fs2)
          | Except.ok (PodcastResult.ok audio_path script md, fs2) =>
            match fs2 audio_path with
            | none =>
              ({ status := 500, success := false, audio_data := none
                 audio_filename := none, script := none, metadata := none
                 error := some "Server error: audio file missing" }, fs2)
            | some bytes =>
              ({ status := 200, success := true
                 audio_data := some (b64encode bytes)
                 audio_filename := some (basename audio_path)
                 script := some script, metadata := some md
                 error := none }, fs2)

/-- On a non-empty speaker configuration, format_for_elevenlabs succeeds and
is the per-turn map that pairs the turn's text with the looked-up voice. -/
theorem format_for_elevenlabs_ok (script : List DialogueTurn)
    (c0 : SpeakerConfig) (rest : List SpeakerConfig) :
    format_for_elevenlabs script (c0 :: rest) =
      Except.ok (script.map (fun t =>
        { text := t.text
          voice_id := (voiceMapGet (c0 :: rest) t.speaker).getD c0.voice_id })) := by
  induction script with
  | nil => rfl
  | cons t ts ih => simp [format_for_elevenlabs, ih]

/-- Membership characterisation of the voice-map lookup: a successful lookup
returns the voice of some configured speaker with the looked-up name. -/
theorem voiceMapGet_some {cfg : List SpeakerConfig} {n v : String}
    (h : voiceMapGet cfg n = some v) :
    ∃ c ∈ cfg, c.name = n ∧ c.voice_id = v := by
  induction cfg generalizing v with
  | nil => simp [voiceMapGet] at h
  | cons c rest ih =>
    simp only [voiceMapGet] at h
    rcases hrest : voiceMapGet rest n with _ | v₂
    · rw [hrest] at h
      by_cases hn : c.name = n
      · simp [hn] at h
        exact ⟨c, List.mem_cons_self c rest, hn, h⟩
      · simp [hn] at h
    · rw [hrest] at h
      obtain ⟨c₂, hc₂, hn₂, hv₂⟩ := ih hrest
      refine ⟨c₂, List.mem_cons_of_mem c hc₂, hn₂, ?_⟩
      rw [hv₂]
      exact Option.some.inj h

/-- Failure characterisation of the voice-map lookup: a missing key means no
configured speaker has that name. -/
theorem voiceMapGet_none {cfg : List SpeakerConfig} {n : String}
    (h : voiceMapGet cfg n = none) :
    ∀ c ∈ cfg, c.name ≠ n := by
  induction cfg with
  | nil => simp
  | cons c rest ih =>
    simp only [voiceMapGet] at h
    rcases hrest : voiceMapGet rest n with _ | v₂
    · rw [hrest] at h
      intro c' hc'
      rcases List.mem_cons.mp hc' with hceq | hmem
      · subst hceq
        by_cases hn : c'.name = n
        · simp [hn] at h
        · exact hn
      · exact ih hrest c' hmem
    · rw [hrest] at h
      simp at h

/-- Length of the padding loop result: each pass appends one voice. -/
theorem padLoop_length (n : Nat) (sel : List String) :
    (padLoop n sel).length = sel.length + n := by
  induction n generalizing sel with
  | zero => rfl
  | succ m ih =>
    simp only [padLoop, ih]
    simp
    omega

/-- Indexing with default inside bounds hits a list element. -/
theorem getD_mem_of_lt {α : Type} (l : List α) (d : α) {i : Nat}
    (h : i < l.length) : l.getD i d ∈ l := by
  rw [List.getD_eq_getElem l d h]
  exact List.getElem_mem h

/-- Every voice in the padding loop result was already selected or comes from
the default pool. -/
theorem padLoop_mem {n : Nat} {sel : List String} {v : String}
    (h : v ∈ padLoop n sel) : v ∈ sel ∨ v ∈ available_voices := by
  induction n generalizing sel with
  | zero => exact Or.inl h
  | succ m ih =>
    rcases ih h with h₂ | h₂
    · rcases List.mem_append.mp h₂ with h₃ | h₃
      · exact Or.inl h₃
      · right
        have hlt : sel.length % available_voices.length < available_voices.length := by
          apply Nat.mod_lt
          decide
        rw [List.mem_singleton.mp h₃]
        exact getD_mem_of_lt _ _ hlt
    · exact Or.inr h₂

/-- The speaker-configuration list always has exactly min(num_speakers, 4)
entries. -/
theorem _get_speaker_config_length (num_speakers : Nat) (style : String)
    (voice_ids : Option (List String)) (characteristics : Option (List String)) :
    (_get_speaker_config num_speakers style voice_ids characteristics).length =
      min num_speakers 4 := by
  simp [_get_speaker_config]

/-- The unclamped voice selection has at least min(num_speakers, 4)
entries. -/
theorem selectedVoicesPre_length_ge (num_speakers : Nat)
    (voice_ids : Option (List String)) :
    min num_speakers 4 ≤ (selectedVoicesPre num_speakers voice_ids).length := by
  rcases voice_ids with _ | vs
  · simp only [selectedVoicesPre, List.length_take]
    have : available_voices.length = 8 := by decide
    omega
  · by_cases hvs : vs = []
    · subst hvs
      simp only [selectedVoicesPre, if_pos rfl, if_true, eq_self_iff_true,
        List.length_take]
      have : available_voices.length = 8 := by decide
      omega
    · simp only [selectedVoicesPre, if_neg hvs, padVoices, padLoop_length,
        List.length_take]
      omega

/-- Every entry of the unclamped voice selection is a caller-supplied voice
or a default-pool voice. -/
theorem selectedVoicesPre_mem {num_speakers : Nat}
    {voice_ids : Option (List String)} {v : String}
    (h : v ∈ selectedVoicesPre num_speakers voice_ids) :
    v ∈ voice_ids.getD [] ∨ v ∈ available_voices := by
  rcases voice_ids with _ | vs
  · exact Or.inr (List.take_subset _ _ h)
  · by_cases hvs : vs = []
    · simp only [selectedVoicesPre, hvs, if_pos rfl] at h
      exact Or.inr (List.take_subset _ _ h)
    · simp only [selectedVoicesPre, if_neg hvs, padVoices] at h
      rcases padLoop_mem h with h₃ | h₃
      · exact Or.inl (List.take_subset _ _ h₃)
      · exact Or.inr h₃

/-- Every voice identifier appearing in the speaker configuration comes from
the caller-supplied voice_ids list or from the default pool. -/
theorem _get_speaker_config_voice_mem (num_speakers : Nat) (style : String)
    (voice_ids : Option (List String)) (characteristics : Option (List String))
    (c : SpeakerConfig)
    (hc : c ∈ _get_speaker_config num_speakers style voice_ids characteristics) :
    c.voice_id ∈ voice_ids.getD [] ∨ c.voice_id ∈ available_voices := by
  classical
  simp only [_get_speaker_config, List.mem_map, List.mem_range] at hc
  obtain ⟨i, hi, hceq⟩ := hc
  have hvid : c.voice_id =
      ((selectedVoicesPre num_speakers voice_ids).take (min num_speakers 4)).getD i "" := by
    rw [← hceq]
    by_cases hcase : i < (characteristics.getD []).length ∧
        (characteristic_map ((characteristics.getD []).getD i "")).isSome
    · simp only [if_pos hcase]
    · simp only [if_neg hcase]
  have hlen := selectedVoicesPre_length_ge num_speakers voice_ids
  have hitake : i <
      ((selectedVoicesPre num_speakers voice_ids).take (min num_speakers 4)).length := by
    rw [List.length_take]
    omega
  have hmem₂ : c.voice_id ∈ selectedVoicesPre num_speakers voice_ids := by
    rw [hvid]
    exact List.take_subset _ _ (getD_mem_of_lt _ _ hitake)
  exact selectedVoicesPre_mem hmem₂

/-- C9: for every non-empty script and empty speaker_config list,
format_for_elevenlabs raises an IndexError rather than returning a result,
because the first-speaker fallback speaker_config[0]['voice_id'] is
evaluated eagerly for every turn before the name lookup. -/
theorem C9_empty_config_raises_index_error (turn : DialogueTurn)
    (rest : List DialogueTurn) :
    format_for_elevenlabs (turn :: rest) [] =
      Except.error "list index out of range" := rfl

/-- C1 counterexample: the claim quantifies over every speaker configuration
list, but at the concrete input of a one-turn script and the empty
configuration, format_for_elevenlabs raises IndexError and returns no
per-turn list at all. -/
theorem C1_counterexample :
    format_for_elevenlabs [{ speaker := "Alex", text := "hi", emotion := "neutral" }] [] =
      Except.error "list index out of range" ∧
    ¬∃ out,
      format_for_elevenlabs [{ speaker := "Alex", text := "hi", emotion := "neutral" }] [] =
        Except.ok out := by
  refine ⟨rfl, ?_⟩
  rintro ⟨out, h⟩
  exact Except.noConfusion
    (h : (Except.error "list index out of range" : Except String (List SynthesisEntry)) =
      Except.ok out)

/-- C1 (amended): for every script and every NON-EMPTY speaker configuration
list, format_for_elevenlabs deterministically returns one text/voice entry
per turn in order; a turn whose speaker name matches a configured speaker
gets that speaker's voice_id, and a turn whose speaker name is absent from
the configuration falls back to the first configured speaker's voice_id. -/
theorem C1_format_for_elevenlabs_spec (script : List DialogueTurn)
    (c0 : SpeakerConfig) (rest : List SpeakerConfig) :
    ∃ out, format_for_elevenlabs script (c0 :: rest) = Except.ok out ∧
      out.length = script.length ∧
      ∀ i, i < script.length →
        (out.getD i { text := "", voice_id := "" }).text =
          (script.getD i { speaker := "", text := "", emotion := "" }).text ∧
        ((∃ c ∈ c0 :: rest,
            c.name = (script.getD i { speaker := "", text := "", emotion := "" }).speaker ∧
            (out.getD i { text := "", voice_id := "" }).voice_id = c.voice_id) ∨
         ((∀ c ∈ c0 :: rest,
            c.name ≠ (script.getD i { speaker := "", text := "", emotion := "" }).speaker) ∧
          (out.getD i { text := "", voice_id := "" }).voice_id = c0.voice_id)) := by
  refine ⟨_, format_for_elevenlabs_ok script c0 rest, by simp, ?_⟩
  intro i hi
  have hi₂ : i < (script.map (fun t =>
      ({ text := t.text
         voice_id := (voiceMapGet (c0 :: rest) t.speaker).getD c0.voice_id } :
        SynthesisEntry))).length := by
    simpa using hi
  rw [List.getD_eq_getElem _ _ hi₂, List.getElem_map,
    List.getD_eq_getElem _ _ hi]
  refine ⟨rfl, ?_⟩
  rcases hv : voiceMapGet (c0 :: rest) (script.get ⟨i, hi⟩).speaker with _ | v
  · right
    exact ⟨voiceMapGet_none hv, by simp [hv]⟩
  · left
    obtain ⟨c, hc, hn, hvid⟩ := voiceMapGet_some hv
    exact ⟨c, hc, by simpa using hn, by simp [hv, hvid]⟩

/-- C1 witness: the amended statement evaluated on a concrete two-speaker
configuration and a one-turn script. -/
theorem C1_witness :
    ∃ out,
      format_for_elevenlabs [{ speaker := "Jordan", text := "hello", emotion := "calm" }]
        [{ name := "Alex", role := "Host", personality := "P", voice_id := "v0" },
         { name := "Jordan", role := "Learner", personality := "Q", voice_id := "v1" }] =
        Except.ok out ∧
      out.length = 1 ∧ out.getD 0 { text := "", voice_id := "" } =
        { text := "hello", voice_id := "v1" } := by
  obtain ⟨out, h₁, h₂, -⟩ :=
    C1_format_for_elevenlabs_spec
      [{ speaker := "Jordan", text := "hello", emotion := "calm" }]
      { name := "Alex", role := "Host", personality := "P", voice_id := "v0" }
      [{ name := "Jordan", role := "Learner", personality := "Q", voice_id := "v1" }]
  refine ⟨out, h₁, h₂, ?_⟩
  have h₃ : out = [{ text := "hello", voice_id := "v1" }] := by
    have := h₁.symm.trans (by rfl :
      format_for_elevenlabs [{ speaker := "Jordan", text := "hello", emotion := "calm" }]
        [{ name := "Alex", role := "Host", personality := "P", voice_id := "v0" },
         { name := "Jordan", role := "Learner", personality := "Q", voice_id := "v1" }] =
        Except.ok [{ text := "hello", voice_id := "v1" }])
    exact Except.ok.inj this
  rw [h₃]
  rfl

/-- C2 counterexample: the Python truthiness test accepts the caller-supplied
voice list containing a single empty string, and that empty string becomes
the configured voice_id, so at this concrete input not every entry has a
non-empty voice_id. -/
theorem C2_counterexample :
    ∃ c ∈ _get_speaker_config 1 "educational" (some [""]) none,
      c.voice_id = "" := by decide

/-- C2 (amended): for every num_speakers in 1..4 and every style, voice_ids
and characteristics input IN WHICH EVERY CALLER-SUPPLIED VOICE ID IS
NON-EMPTY, the speaker-assignment algorithm returns exactly
min(num_speakers, 4) entries, each with a non-empty voice_id; determinism
holds because the embedding is a pure function of its arguments. -/
theorem C2_get_speaker_config_spec (num_speakers : Nat) (style : String)
    (voice_ids characteristics : Option (List String))
    (h₁ : 1 ≤ num_speakers) (h₂ : num_speakers ≤ 4)
    (h₃ : ∀ v ∈ voice_ids.getD [], v ≠ "") :
    (_get_speaker_config num_speakers style voice_ids characteristics).length =
      min num_speakers 4 ∧
    ∀ c ∈ _get_speaker_config num_speakers style voice_ids characteristics,
      c.voice_id ≠ "" := by
  refine ⟨_get_speaker_config_length num_speakers style voice_ids characteristics, ?_⟩
  intro c hc
  rcases _get_speaker_config_voice_mem num_speakers style voice_ids characteristics
    c hc with h | h
  · exact h₃ _ h
  · have hpool : ∀ v ∈ available_voices, v ≠ "" := by decide
    exact hpool _ h

/-- C2 witness: the amended statement evaluated at two speakers, educational
style and two non-empty caller voices. -/
theorem C2_witness :
    (_get_speaker_config 2 "educational" (some ["a", "b"]) none).length = min 2 4 ∧
    ∀ c ∈ _get_speaker_config 2 "educational" (some ["a", "b"]) none,
      c.voice_id ≠ "" :=
  C2_get_speaker_config_spec 2 "educational" (some ["a", "b"]) none
    (by decide) (by decide) (by decide)

/-- Inversion of a successful script generation: the metadata is exactly the
topic, the caller's unclamped speaker count, style, length and the computed
speaker configuration. -/
theorem generate_dialogue_script_ok_inv
    (chat : String → String → Except String (List DialogueTurn))
    (knowledge topic : String) (num_speakers : Nat) (style length : String)
    (voice_ids characteristics : Option (List String))
    (d : List DialogueTurn) (md : ScriptMetadata)
    (hok : generate_dialogue_script chat knowledge topic num_speakers style length
      voice_ids characteristics = ScriptResult.ok d md) :
    md = { topic := topic, num_speakers := num_speakers, style := style
           length := length
           speaker_config :=
             _get_speaker_config num_speakers style voice_ids characteristics } := by
  simp only [generate_dialogue_script] at hok
  split at hok
  · exact ScriptResult.noConfusion hok
  · injection hok with hd hmd
    exact hmd.symm

/-- C10: when generate_dialogue_script is called with num_speakers greater
than 4 and the chat service succeeds, the returned metadata records the
caller's original unclamped num_speakers while its speaker_config holds
only 4 entries, so metadata.num_speakers exceeds the configuration
length. -/
theorem C10_metadata_num_speakers_unclamped
    (chat : String → String → Except String (List DialogueTurn))
    (knowledge topic : String) (num_speakers : Nat) (style length : String)
    (voice_ids characteristics : Option (List String))
    (d : List DialogueTurn) (md : ScriptMetadata)
    (hn : 4 < num_speakers)
    (hok : generate_dialogue_script chat knowledge topic num_speakers style length
      voice_ids characteristics = ScriptResult.ok d md) :
    md.num_speakers = num_speakers ∧ md.speaker_config.length = 4 ∧
    md.speaker_config.length < md.num_speakers := by
  have hmd := generate_dialogue_script_ok_inv chat knowledge topic num_speakers
    style length voice_ids characteristics d md hok
  subst hmd
  refine ⟨rfl, ?_, ?_⟩
  · rw [_get_speaker_config_length]
    omega
  · rw [_get_speaker_config_length]
    simp only []
    omega

/-- C10 witness: five requested speakers with a trivially succeeding chat
oracle yield metadata claiming 5 speakers over a 4-entry configuration. -/
theorem C10_witness :
    ∃ d md,
      generate_dialogue_script (fun _ _ => Except.ok ([] : List DialogueTurn))
        "k" "t" 5 "educational" "medium" none none = ScriptResult.ok d md ∧
      md.num_speakers = 5 ∧ md.speaker_config.length = 4 ∧
      md.speaker_config.length < md.num_speakers := by
  refine ⟨[],
    { topic := "t", num_speakers := 5, style := "educational", length := "medium",
      speaker_config := _get_speaker_config 5 "educational" none none }, rfl, ?_⟩
  exact C10_metadata_num_speakers_unclamped (fun _ _ => Except.ok [])
    "k" "t" 5 "educational" "medium" none none []
    { topic := "t", num_speakers := 5, style := "educational", length := "medium"
      speaker_config := _get_speaker_config 5 "educational" none none }
    (by norm_num) rfl

/-- C3: whenever the script stage fails, the orchestrator returns the
failure dict with the Script generation failed prefix and the script
stage's error, with the filesystem untouched; the synthesis oracle is
universally quantified and absent from the conclusion, so the audio stage
is never invoked. -/
theorem C3_script_failure_short_circuits
    (chat : String → String → Except String (List DialogueTurn))
    (synth : List SynthesisEntry → List (List Nat) × Option String)
    (knowledge topic output_path : String) (num_speakers : Nat)
    (style length : String)
    (voice_ids characteristics : Option (List String)) (fs : FileSystem)
    (e : String)
    (hfail : generate_dialogue_script chat knowledge topic num_speakers style length
      voice_ids characteristics = ScriptResult.err e) :
    PodcastGenerator.generate_podcast chat synth knowledge topic output_path
      num_speakers style length voice_ids characteristics fs =
      Except.ok (PodcastResult.err ("Script generation failed: " ++ e), fs) := by
  simp only [PodcastGenerator.generate_podcast, hfail]

/-- C3 witness: a chat oracle that raises makes the orchestrator stop with
the prefixed script-stage error for an arbitrary concrete synthesis
oracle. -/
theorem C3_witness :
    PodcastGenerator.generate_podcast (fun _ _ => Except.error "boom")
      (fun _ => ([], none)) "k" "t" "out.mp3" 2 "educational" "medium"
      none none (fun _ => none) =
      Except.ok (PodcastResult.err ("Script generation failed: " ++ "boom"),
        fun _ => none) :=
  C3_script_failure_short_circuits (fun _ _ => Except.error "boom")
    (fun _ => ([], none)) "k" "t" "out.mp3" 2 "educational" "medium"
    none none (fun _ => none) "boom" rfl

/-- C4: on a fully successful run the orchestrator's result carries the
script stage's script unchanged and the script metadata extended with the
audio stage's file_size and estimated_duration. -/
theorem C4_success_preserves_script_and_merges_metadata
    (chat : String → String → Except String (List DialogueTurn))
    (synth : List SynthesisEntry → List (List Nat) × Option String)
    (knowledge topic output_path : String) (num_speakers : Nat)
    (style length : String)
    (voice_ids characteristics : Option (List String)) (fs : FileSystem)
    (d : List DialogueTurn) (md : ScriptMetadata) (ds : List SynthesisEntry)
    (ap : String) (fsz : Nat) (dur : ℚ) (fs2 : FileSystem)
    (hscript : generate_dialogue_script chat knowledge topic num_speakers style
      length voice_ids characteristics = ScriptResult.ok d md)
    (hformat : format_for_elevenlabs d md.speaker_config = Except.ok ds)
    (haudio : generate_podcast_audio synth ds output_path fs =
      (AudioResult.ok ap fsz dur, fs2)) :
    PodcastGenerator.generate_podcast chat synth knowledge topic output_path
      num_speakers style length voice_ids characteristics fs =
      Except.ok (PodcastResult.ok ap d
        { topic := md.topic, num_speakers := md.num_speakers, style := md.style
          length := md.length, speaker_config := md.speaker_config
          file_size := fsz, estimated_duration := dur }, fs2) := by
  simp only [PodcastGenerator.generate_podcast, hscript, hformat, haudio]

/-- C4 witness: a one-turn script and a one-chunk synthesis stream produce
the success dict with the stage script and the merged metadata. -/
theorem C4_witness :
    PodcastGenerator.generate_podcast
      (fun _ _ => Except.ok [{ speaker := "Alex", text := "hi", emotion := "calm" }])
      (fun _ => ([[7]], none)) "k" "t" "out.mp3" 1 "educational" "medium"
      none none (fun _ => none) =
      Except.ok (PodcastResult.ok "out.mp3"
        [{ speaker := "Alex", text := "hi", emotion := "calm" }]
        { topic := "t", num_speakers := 1, style := "educational"
          length := "medium"
          speaker_config := _get_speaker_config 1 "educational" none none
          file_size := 1, estimated_duration := estimated_duration_of 1 },
        fun p => if p = "out.mp3" then some [7] else none) :=
  C4_success_preserves_script_and_merges_metadata
    (fun _ _ => Except.ok [{ speaker := "Alex", text := "hi", emotion := "calm" }])
    (fun _ => ([[7]], none)) "k" "t" "out.mp3" 1 "educational" "medium"
    none none (fun _ => none)
    [{ speaker := "Alex", text := "hi", emotion := "calm" }]
    { topic := "t", num_speakers := 1, style := "educational", length := "medium"
      speaker_config := _get_speaker_config 1 "educational" none none }
    [{ text := "hi", voice_id := "9BWtsMINqrJLrRacOk9x" }]
    "out.mp3" 1 (estimated_duration_of 1)
    (fun p => if p = "out.mp3" then some [7] else none) rfl rfl rfl

/-- C7: if the synthesis chunk iterator raises mid-stream after yielding
some chunks, generate_podcast_audio returns the failure dict with the
exception text and the returned filesystem is the input filesystem
unchanged: no partial file exists at the output path, because the single
whole-buffer write only happens after all chunks have been received. -/
theorem C7_midstream_failure_leaves_no_partial_file
    (synth : List SynthesisEntry → List (List Nat) × Option String)
    (dialogue_script : List SynthesisEntry) (output_path : String)
    (fs : FileSystem) (chunks : List (List Nat)) (e : String)
    (hmid : synth dialogue_script = (chunks, some e)) :
    generate_podcast_audio synth dialogue_script output_path fs =
      (AudioResult.err e, fs) := by
  simp only [generate_podcast_audio, hmid]

/-- C7 witness: an iterator yielding one chunk and then raising leaves the
empty filesystem empty and reports the exception text. -/
theorem C7_witness :
    generate_podcast_audio (fun _ => ([[1, 2]], some "midfail")) []
      "podcast.mp3" (fun _ => none) =
      (AudioResult.err "midfail", fun _ => none) :=
  C7_midstream_failure_leaves_no_partial_file (fun _ => ([[1, 2]], some "midfail"))
    [] "podcast.mp3" (fun _ => none) [[1, 2]] "midfail" rfl

/-- C8: on every successful synthesize call the returned estimated_duration
is estimated_duration_of of the written byte count, which equals
file_size / 1048576 * 60; it is strictly positive whenever file_size is
positive, and strictly monotone in file_size. -/
theorem C8_estimated_duration_formula
    (synth : List SynthesisEntry → List (List Nat) × Option String)
    (dialogue_script : List SynthesisEntry) (output_path : String)
    (fs : FileSystem) (chunks : List (List Nat))
    (hok : synth dialogue_script = (chunks, none)) :
    (generate_podcast_audio synth dialogue_script output_path fs).1 =
      AudioResult.ok output_path chunks.flatten.length
        (estimated_duration_of chunks.flatten.length) ∧
    (∀ n : Nat, estimated_duration_of n = (n : ℚ) / 1048576 * 60) ∧
    (∀ n : Nat, 0 < n → 0 < estimated_duration_of n) ∧
    (∀ m n : Nat, m < n → estimated_duration_of m < estimated_duration_of n) := by
  refine ⟨by simp only [generate_podcast_audio, hok], ?_, ?_, ?_⟩
  · intro n
    unfold estimated_duration_of
    rw [div_div]
    norm_num
  · intro n hn
    unfold estimated_duration_of
    have hpos : (0 : ℚ) < (n : ℚ) := by exact_mod_cast hn
    positivity
  · intro m n hmn
    unfold estimated_duration_of
    have hcast : (m : ℚ) < (n : ℚ) := by exact_mod_cast hmn
    have h₁ : (m : ℚ) / 1024 / 1024 < (n : ℚ) / 1024 / 1024 := by gcongr
    linarith

/-- C8 witness: a two-byte stream yields a success result whose duration is
the fixed-ratio estimate of its byte count. -/
theorem C8_witness :
    (generate_podcast_audio (fun _ => ([[3, 4]], none)) [] "p.mp3"
      (fun _ => none)).1 =
      AudioResult.ok "p.mp3" 2 (estimated_duration_of 2) ∧
    estimated_duration_of 2 = (2 : ℚ) / 1048576 * 60 := by
  have h := C8_estimated_duration_formula (fun _ => ([[3, 4]], none)) [] "p.mp3"
    (fun _ => none) [[3, 4]] rfl
  exact ⟨h.1, h.2.1 2⟩

/-- C5: extract_knowledge is total (it never raises past its boundary: every
outcome is a tagged ExtractionResult).  A transport exception becomes the
failure dict carrying the exception text; success is reported only when
the service response reports success; every other outcome is a failure
whose error is copied from the service (API Error prefix) or the
synthesized no-content message. -/
theorem C5_extract_knowledge_boundary
    (answerService : String → Except String (Option ValyuResponse))
    (query sd : String) :
    (∀ e, answerService query = Except.error e →
      KnowledgeExtractor.extract_knowledge answerService query sd =
        { success := false, query := query, answer := none, sources := none
          error := some e, raw_response := none }) ∧
    ((KnowledgeExtractor.extract_knowledge answerService query sd).success = true →
      ∃ resp, answerService query = Except.ok (some resp) ∧
        resp.success = some true) ∧
    (answerService query = Except.ok none →
      (KnowledgeExtractor.extract_knowledge answerService query sd).success = false ∧
      (KnowledgeExtractor.extract_knowledge answerService query sd).error =
        some "No content received from Valyu.ai") ∧
    (∀ resp, answerService query = Except.ok (some resp) →
      resp.success ≠ some true →
      (KnowledgeExtractor.extract_knowledge answerService query sd).success = false ∧
      ((KnowledgeExtractor.extract_knowledge answerService query sd).error =
          some ("API Error: " ++ resp.error.getD "") ∨
       (KnowledgeExtractor.extract_knowledge answerService query sd).error =
          some "No content received from Valyu.ai")) := by
  refine ⟨?_, ?_, ?_, ?_⟩
  · intro e he
    simp [KnowledgeExtractor.extract_knowledge, he]
  · intro hsucc
    rcases h : answerService query with e | resp
    · simp [KnowledgeExtractor.extract_knowledge, h] at hsucc
    · rcases resp with _ | r
      · simp [KnowledgeExtractor.extract_knowledge, h] at hsucc
      · by_cases hs : r.success = some true
        · exact ⟨r, rfl, hs⟩
        · exfalso
          simp only [KnowledgeExtractor.extract_knowledge, h] at hsucc
          rw [if_neg hs] at hsucc
          split_ifs at hsucc
  · intro h
    constructor <;> simp [KnowledgeExtractor.extract_knowledge, h]
  · intro r h hs
    by_cases he : r.error.getD "" = ""
    · constructor
      · simp [KnowledgeExtractor.extract_knowledge, h, hs, he]
      · right
        simp [KnowledgeExtractor.extract_knowledge, h, hs, he]
    · constructor
      · simp [KnowledgeExtractor.extract_knowledge, h, hs, he]
      · left
        simp [KnowledgeExtractor.extract_knowledge, h, hs, he]

/-- C5 witness: a transport raising netfail is converted into the tagged
failure dict carrying that text. -/
theorem C5_witness :
    KnowledgeExtractor.extract_knowledge (fun _ => Except.error "netfail")
      "q" "comprehensive" =
      { success := false, query := "q", answer := none, sources := none
        error := some "netfail", raw_response := none } :=
  (C5_extract_knowledge_boundary (fun _ => Except.error "netfail")
    "q" "comprehensive").1 "netfail" rfl

/-- C6 counterexample: the claim covers every incoming request, but the
generate-podcast endpoint strips the query without an emptiness check, so
a whitespace-only query reaches the knowledge extractor: the probing answer
service's exception text appears in the response, proving a service call
was made instead of a validation rejection. -/
theorem C6_counterexample :
    (Api.generate_podcast (fun _ => Except.error "probe")
      (fun _ _ => Except.ok []) (fun _ => ([], none)) (fun _ => "") true
      (some { query := some " ", style := none, length := none, num_speakers := none })
      (fun _ => none)).1 =
      { status := 500, success := false, audio_data := none
        audio_filename := none, script := none, metadata := none
        error := some ("Knowledge extraction failed: " ++ "probe") } := rfl

/-- C6 (amended): the extract endpoint rejects a query that is empty after
stripping with a 400 validation error whose response is independent of the
answer service (so no external call is observable); the generate-podcast
endpoint, by contrast, validates only the presence of the query key and
passes the empty stripped query to the knowledge extractor, whose outcome
determines the response. -/
theorem C6_empty_query_validation
    (answerService : String → Except String (Option ValyuResponse))
    (extractor_ready : Bool) (rawQuery : String)
    (hempty : pyStrip rawQuery = "") :
    Api.extract_knowledge answerService extractor_ready (some (some rawQuery)) =
      { status := 400, success := false, query := none, answer := none
        sources := none, error := some "Query cannot be empty" } ∧
    (∀ (chat : String → String → Except String (List DialogueTurn))
       (synth : List SynthesisEntry → List (List Nat) × Option String)
       (b64encode : List Nat → String) (fs : FileSystem) (e : String),
      answerService "" = Except.error e →
      (Api.generate_podcast answerService chat synth b64encode true
        (some { query := some rawQuery, style := none, length := none
                num_speakers := none }) fs).1 =
        { status := 500, success := false, audio_data := none
          audio_filename := none, script := none, metadata := none
          error := some ("Knowledge extraction failed: " ++ e) }) := by
  constructor
  · simp [Api.extract_knowledge, hempty]
  · intro chat synth b64encode fs e hsvc
    simp [Api.generate_podcast, hempty, KnowledgeExtractor.extract_knowledge, hsvc]

/-- C6 witness: a whitespace-only query is rejected by the extract endpoint
yet drives the generate-podcast endpoint into the knowledge-extraction
stage. -/
theorem C6_witness :
    Api.extract_knowledge (fun _ => Except.error "svcdown") true (some (some " ")) =
      { status := 400, success := false, query := none, answer := none
        sources := none, error := some "Query cannot be empty" } ∧
    (Api.generate_podcast (fun _ => Except.error "svcdown")
      (fun _ _ => Except.ok []) (fun _ => ([], none)) (fun _ => "") true
      (some { query := some " ", style := none, length := none, num_speakers := none })
      (fun _ => none)).1 =
      { status := 500, success := false, audio_data := none
        audio_filename := none, script := none, metadata := none
        error := some ("Knowledge extraction failed: " ++ "svcdown") } := by
  have h := C6_empty_query_validation (fun _ => Except.error "svcdown") true " " rfl
  exact ⟨h.1, h.2 (fun _ _ => Except.ok []) (fun _ => ([], none)) (fun _ => "")
    (fun _ => none) "svcdown" rfl⟩

end EduCast
